import Mathlib

/-!
Verification of the whisper-voice session core.

Shallow embedding of the repository's Python sources:
  * `src/main.py`    — `WhisperApp` (hotkey handling, `toggle_recording`,
    `start_recording`, `stop_recording`, `transcribe_audio`);
  * `src/recorder.py` — `Recorder` (sounddevice input stream, frame buffer,
    WAV finalization);
  * `src/transcriber.py` — `transcribe` (OpenAI Whisper call, temp-file
    deletion);
  * `src/clipboard.py` — `paste_text` (pbcopy + synthetic Cmd+V).

Side effects (icon updates, menu status, notifications, clipboard writes,
paste invocations, file deletions) are made observable either as fields of
an explicit state record or as an ordered list of `Effect`s, in the order
the Python statements execute them.  External collaborators (the
sounddevice stream, the OpenAI client, the OS) are modelled by their
documented behaviour where the repository code depends on it: the OpenAI
client constructor raises when no API key is available, and a remote call
outcome is passed in as a parameter (`ApiOutcome`).
-/

/-! ## HotkeyWatcher — `WhisperApp.listen_hotkey` in `src/main.py`

`pressed_keys` is a Python `set`; we model it as a duplicate-free
`List Key` (membership is checked before insertion, mirroring `set.add`
semantics, and `set.discard` removes the element).  `on_press` adds the
key and, if both `Key.alt` and `Key.space` are now present, clears the set
and fires the toggle (`pressed_keys.clear()` followed by spawning
`toggle_recording`).  `on_release` discards the key. -/

inductive Key where
  | alt
  | space
  | other (code : Nat)
deriving DecidableEq, Repr

inductive KeyEvent where
  | press (k : Key)
  | release (k : Key)
deriving DecidableEq, Repr

def KeyEvent.isPress : KeyEvent → Bool
  | .press _ => true
  | .release _ => false

def on_press (s : List Key) (k : Key) : List Key × Bool :=
  let s1 := if k ∈ s then s else k :: s
  if Key.alt ∈ s1 ∧ Key.space ∈ s1 then ([], true) else (s1, false)

def on_release (s : List Key) (k : Key) : List Key :=
  s.erase k

def hotkeyStep (s : List Key) (e : KeyEvent) : List Key × Bool :=
  match e with
  | .press k => on_press s k
  | .release k => (on_release s k, false)

/-- Run the listener over a sequence of key events, returning the final
pressed-key set and the number of toggle signals emitted. -/
def hotkeyRun : List Key → List KeyEvent → List Key × Nat
  | s, [] => (s, 0)
  | s, e :: rest =>
    let s1 := (hotkeyStep s e).1
    let fired := (hotkeyStep s e).2
    ((hotkeyRun s1 rest).1, (if fired then 1 else 0) + (hotkeyRun s1 rest).2)

/-! ## Recorder — `src/recorder.py`

A callback block (`indata`, shape `(n, 1)`, dtype `int16`) is modelled as
a list of samples.  The `stream` attribute is only assigned inside
`start()`; `stream = none` models the attribute not existing yet, so that
`stop()` on a fresh `Recorder` raises `AttributeError` exactly where
Python does (`self.stream.stop()`).  `stop()` assigns
`self.recording = False` first (`stopBegin`), then touches the stream and
finalizes (`stopFinish`); the split makes the ordering observable: a
callback block delivered after `stopBegin` is dropped.  `wav.write` is
called with the concatenation (`axis=0`) of the collected `int16` mono
blocks at `SAMPLE_RATE`; the resulting artifact is modelled by `WavFile`
(a path on disk paired with this content in the real program). -/

def SAMPLE_RATE : Nat := 16000

abbrev Block := List Int

inductive StreamStatus where
  | started
  | stopped
  | closed
deriving DecidableEq, Repr

structure WavFile where
  sampleRate : Nat
  channels : Nat
  bitDepth : Nat
  samples : List Int
deriving DecidableEq, Repr

inductive RecError where
  | attributeError
deriving DecidableEq, Repr

structure Recorder where
  recording : Bool
  frames : List Block
  stream : Option StreamStatus
deriving DecidableEq, Repr

/-- `Recorder.__init__`: no `stream` attribute yet. -/
def Recorder.init : Recorder :=
  { recording := false, frames := [], stream := none }

/-- `Recorder.start`: reset frames, set the flag, open and start the
input stream (16 kHz, 1 channel, int16). -/
def Recorder.start (r : Recorder) : Recorder :=
  { r with frames := [], recording := true, stream := some StreamStatus.started }

/-- `Recorder._callback`: append a copy of the block iff `self.recording`. -/
def Recorder.callback (r : Recorder) (indata : Block) : Recorder :=
  if r.recording then { r with frames := r.frames ++ [indata] } else r

/-- First statement of `Recorder.stop`: `self.recording = False`. -/
def Recorder.stopBegin (r : Recorder) : Recorder :=
  { r with recording := false }

/-- Rest of `Recorder.stop`: stop and close the stream (raising
`AttributeError` when `start` never ran), return `none` when no frames
were collected, otherwise write and return the WAV artifact. -/
def Recorder.stopFinish (r : Recorder) : Except RecError (Recorder × Option WavFile) :=
  match r.stream with
  | none => Except.error RecError.attributeError
  | some _ =>
    let r2 := { r with stream := some StreamStatus.closed }
    if r.frames.isEmpty then Except.ok (r2, none)
    else Except.ok (r2, some { sampleRate := SAMPLE_RATE, channels := 1,
                               bitDepth := 16, samples := r.frames.flatten })

def Recorder.stop (r : Recorder) : Except RecError (Recorder × Option WavFile) :=
  r.stopBegin.stopFinish

/-- `Recorder.is_recording`. -/
def Recorder.is_recording (r : Recorder) : Bool :=
  r.recording

/-! ## TranscriptionClient — `src/transcriber.py`

`transcribe(audio_path)` reads `OPENAI_API_KEY` from the environment,
builds an OpenAI client, posts the file to the Whisper endpoint, deletes
the file with `os.unlink`, and returns `transcription.text`.  The
environment is `Env`; the filesystem is the set of existing paths `FS`;
the remote call's outcome is the parameter `ApiOutcome`, whose failure
side carries the spec's error classification (the classes realised by the
OpenAI SDK's exception types: authentication, connection, API-status
errors); an empty transcript is an `ApiOutcome.ok ""`, i.e. a valid
result, not an error.  The OpenAI client constructor raises an
`OpenAIError` when `api_key` is `None` (documented library behaviour the
code relies on); in that case `os.unlink` is never reached.  A raised
exception is an `Except.error` carrying `str(e)`. -/

structure Env where
  apiKey : Option String
deriving DecidableEq, Repr

structure FS where
  files : List String
deriving DecidableEq, Repr

def FS.unlink (fs : FS) (p : String) : FS :=
  { files := fs.files.filter (fun q => q ≠ p) }

def FS.hasFile (fs : FS) (p : String) : Bool :=
  fs.files.contains p

inductive TranscriptionError where
  | authError (msg : String)
  | networkError (msg : String)
  | serviceError (msg : String)
deriving DecidableEq, Repr

def TranscriptionError.message : TranscriptionError → String
  | .authError m => m
  | .networkError m => m
  | .serviceError m => m

inductive ApiOutcome where
  | ok (text : String)
  | fail (e : TranscriptionError)
deriving DecidableEq, Repr

/-- Message of the `OpenAIError` raised by `OpenAI(api_key=None)`. -/
def authMissingMsg : String :=
  "The api_key client option must be set either by passing api_key to the client or by setting the OPENAI_API_KEY environment variable"

/-- Observable side effects of `transcribe_audio` and its callees, in
statement-execution order. -/
inductive Effect where
  | unlink (path : String)
  | paste (text : String)
  | setIcon (state : String)
  | setStatus (status : String)
  | notify (subtitle : String) (message : String)
deriving DecidableEq, Repr

def Effect.isPaste : Effect → Bool
  | .paste _ => true
  | _ => false

structure TranscribeOutcome where
  fs : FS
  trace : List Effect
  result : Except String String
deriving Repr

/-- `transcribe` from `src/transcriber.py`.  Success: the API text is
returned and the artifact is unlinked (in this order: the `unlink` runs
after the `with` block, before `return`).  Failure (missing key, or any
exception from the API call): the exception propagates and the `unlink`
statement is never reached. -/
def transcribe (env : Env) (api : ApiOutcome) (fs : FS) (audio_path : String) :
    TranscribeOutcome :=
  match env.apiKey with
  | none => { fs := fs, trace := [], result := Except.error authMissingMsg }
  | some _ =>
    match api with
    | ApiOutcome.fail e => { fs := fs, trace := [], result := Except.error e.message }
    | ApiOutcome.ok text =>
        { fs := fs.unlink audio_path,
          trace := [Effect.unlink audio_path],
          result := Except.ok text }

/-! ## PasteSink — `src/clipboard.py`

`paste_text` pipes the text into `pbcopy`, sleeps 0.1 s (modelled as 100
milliseconds), then presses and releases Cmd+V.  No step is conditional
on the text being non-empty. -/

inductive PasteEffect where
  | copyToClipboard (text : String)
  | sleepMs (ms : Nat)
  | pressKey (k : String)
  | releaseKey (k : String)
deriving DecidableEq, Repr

def paste_text (text : String) : List PasteEffect :=
  [PasteEffect.copyToClipboard text, PasteEffect.sleepMs 100,
   PasteEffect.pressKey "cmd", PasteEffect.pressKey "v",
   PasteEffect.releaseKey "v", PasteEffect.releaseKey "cmd"]

/-! ## `WhisperApp.transcribe_audio` — `src/main.py`

The `try` block: call `transcribe`, then `paste_text(text)`, then icon
"idle", menu status "Idle", and a "Transcription complete" notification
whose message is `text[:50] + "..." if len(text) > 50 else text`.  The
`except` block (any exception): icon "idle", menu status "Error", and an
"Error" notification carrying `str(e)`. -/

def truncate50 (text : String) : String :=
  if text.length > 50 then text.take 50 ++ "..." else text

structure TranscribeAudioRun where
  fs : FS
  trace : List Effect
deriving DecidableEq, Repr

def transcribe_audio (env : Env) (api : ApiOutcome) (fs : FS) (audio_path : String) :
    TranscribeAudioRun :=
  let t := transcribe env api fs audio_path
  match t.result with
  | Except.ok text =>
      { fs := t.fs,
        trace := t.trace ++ [Effect.paste text, Effect.setIcon "idle",
          Effect.setStatus "Idle",
          Effect.notify "Transcription complete" (truncate50 text)] }
  | Except.error e =>
      { fs := t.fs,
        trace := t.trace ++ [Effect.setIcon "idle", Effect.setStatus "Error",
          Effect.notify "Error" e] }

/-! ## Session controller — `WhisperApp` in `src/main.py`

The app owns a `Recorder` and spawns one daemon thread per dispatched
transcription.  `AppState` records, besides the recorder, the number of
transcription threads currently in flight, the cumulative number of
`Recorder.start` calls and of dispatched `transcribe_audio` threads, the
menu-bar icon and menu status, the notifications sent, and the texts
pasted.  Events: a toggle signal from the hotkey thread
(`toggle_recording` run to completion), an audio block delivered by the
stream callback, and the completion of an in-flight transcription thread
(with the result of its `transcribe` call, applied with the status
effects of `transcribe_audio`). -/

structure AppState where
  recorder : Recorder
  inflight : Nat
  starts : Nat
  dispatches : Nat
  transcription_count : Nat
  icon : String
  status : String
  notifs : List (String × String)
  pasted : List String
deriving DecidableEq, Repr

/-- `WhisperApp.__init__`: fresh recorder, icon/menu idle. -/
def appInit : AppState :=
  { recorder := Recorder.init, inflight := 0, starts := 0, dispatches := 0,
    transcription_count := 0, icon := "idle", status := "Idle",
    notifs := [], pasted := [] }

/-- `WhisperApp.start_recording`. -/
def start_recording (s : AppState) : AppState :=
  { s with
      icon := "recording",
      status := "Recording...",
      recorder := s.recorder.start,
      starts := s.starts + 1,
      notifs := s.notifs ++ [("Recording...", "Option+Space to stop")] }

/-- `WhisperApp.stop_recording`: icon/menu to transcribing, stop the
recorder; a truthy path dispatches a transcription thread, `None` goes
back to idle with an "Error" notification "No audio recorded".  Should
`Recorder.stop` raise, the exception kills the toggle thread after the
recording flag was cleared. -/
def stop_recording (s : AppState) : AppState :=
  let s1 := { s with icon := "transcribing", status := "Transcribing..." }
  match s1.recorder.stop with
  | Except.error _ => { s1 with recorder := s1.recorder.stopBegin }
  | Except.ok (r2, none) =>
      { s1 with
          recorder := r2,
          icon := "idle",
          status := "Idle",
          notifs := s1.notifs ++ [("Error", "No audio recorded")] }
  | Except.ok (r2, some _) =>
      { s1 with
          recorder := r2,
          inflight := s1.inflight + 1,
          dispatches := s1.dispatches + 1 }

/-- `WhisperApp.toggle_recording`: branches solely on
`self.recorder.is_recording()`. -/
def toggle_recording (s : AppState) : AppState :=
  if s.recorder.is_recording then stop_recording s else start_recording s

inductive AppEvent where
  | toggle
  | deliver (b : Block)
  | finish (res : Except String String)

def appStep (s : AppState) (e : AppEvent) : AppState :=
  match e with
  | AppEvent.toggle => toggle_recording s
  | AppEvent.deliver b => { s with recorder := s.recorder.callback b }
  | AppEvent.finish res =>
    if s.inflight = 0 then s
    else
      match res with
      | Except.ok text =>
          { s with
              inflight := s.inflight - 1,
              transcription_count := s.transcription_count + 1,
              icon := "idle",
              status := "Idle",
              pasted := s.pasted ++ [text],
              notifs := s.notifs ++ [("Transcription complete", truncate50 text)] }
      | Except.error e =>
          { s with
              inflight := s.inflight - 1,
              icon := "idle",
              status := "Error",
              notifs := s.notifs ++ [("Error", e)] }

def appRun (s : AppState) (evs : List AppEvent) : AppState :=
  evs.foldl appStep s


/-! ## Helper lemmas -/

/-- A chord member that is never pressed (and is not already held) keeps
the chord test false throughout, so no toggle is ever emitted. -/
theorem hotkeyRun_no_chord_key (m : Key) (hm : m = Key.alt ∨ m = Key.space) :
    ∀ (evs : List KeyEvent) (s : List Key), m ∉ s → KeyEvent.press m ∉ evs →
      (hotkeyRun s evs).2 = 0 := by
  intro evs
  induction evs with
  | nil => intro s _ _; rfl
  | cons e rest ih =>
    intro s hs hevs
    have hrest : KeyEvent.press m ∉ rest := fun hh => hevs (List.mem_cons_of_mem _ hh)
    cases e with
    | press k =>
      have hkm : k ≠ m := by
        intro hk
        subst hk
        exact hevs (List.mem_cons_self _ _)
      have hs1 : m ∉ (if k ∈ s then s else k :: s) := by
        by_cases hk : k ∈ s
        · rw [if_pos hk]; exact hs
        · rw [if_neg hk]
          intro hmem
          rcases List.mem_cons.mp hmem with h | h
          · exact hkm h.symm
          · exact hs h
      have hcond : ¬ (Key.alt ∈ (if k ∈ s then s else k :: s) ∧
          Key.space ∈ (if k ∈ s then s else k :: s)) := by
        intro hc
        cases hm with
        | inl h => subst h; exact hs1 hc.1
        | inr h => subst h; exact hs1 hc.2
      have hstep : hotkeyStep s (KeyEvent.press k) =
          ((if k ∈ s then s else k :: s), false) := by
        simp [hotkeyStep, on_press, hcond]
      simp only [hotkeyRun, hstep, if_neg Bool.false_ne_true, Nat.zero_add]
      exact ih _ hs1 hrest
    | release k =>
      have hs1 : m ∉ on_release s k := by
        intro hc
        exact hs (List.erase_subset _ _ hc)
      simp only [hotkeyRun, hotkeyStep, if_neg Bool.false_ne_true, Nat.zero_add]
      exact ih _ hs1 hrest

/-- Auto-repeated `space` presses while the set already holds `space`
leave the listener state unchanged and fire nothing. -/
theorem hotkeyRun_space_repeat (n : Nat) (tail : List KeyEvent) :
    hotkeyRun [Key.space] (List.replicate n (KeyEvent.press Key.space) ++ tail) =
      hotkeyRun [Key.space] tail := by
  induction n with
  | zero => rfl
  | succ j ih =>
    have hstep : hotkeyStep [Key.space] (KeyEvent.press Key.space) =
        ([Key.space], false) := by decide
    calc hotkeyRun [Key.space]
          (List.replicate (j + 1) (KeyEvent.press Key.space) ++ tail)
        = hotkeyRun [Key.space] (KeyEvent.press Key.space ::
            (List.replicate j (KeyEvent.press Key.space) ++ tail)) := by
          rw [List.replicate_succ, List.cons_append]
      _ = hotkeyRun [Key.space]
            (List.replicate j (KeyEvent.press Key.space) ++ tail) := by
          simp [hotkeyRun, hstep]
      _ = hotkeyRun [Key.space] tail := ih

/-! ## Claims -/

/-- C7 (counterexample): the claim says a new toggle requires releasing
and re-pressing at least one chord member.  On the code, after the
clear-on-match, further press events of the two chord members re-trigger
without any intervening release: the four-press sequence
alt, space, alt, space — containing no release event at all — makes the
listener emit two toggle signals. -/
theorem chord_refires_without_release :
    (List.all [KeyEvent.press Key.alt, KeyEvent.press Key.space,
        KeyEvent.press Key.alt, KeyEvent.press Key.space] KeyEvent.isPress) = true ∧
    (hotkeyRun [] [KeyEvent.press Key.alt, KeyEvent.press Key.space,
        KeyEvent.press Key.alt, KeyEvent.press Key.space]).2 = 2 := by
  decide

/-- C7 (amended): the watcher emits exactly one toggle per
press-hold-release cycle of the Option+Space chord, where holding is any
number of auto-repeated presses of the already-held `space` key
(modifiers do not auto-repeat); pressing only one chord member — `space`
never pressed, or `alt` never pressed — emits no toggle however long the
event sequence; and whenever a press fires the toggle the pressed-key set
is cleared.  (A release is not required before a re-trigger: fresh press
events of both members fire again, see the counterexample.) -/
theorem hotkey_toggle_cycles :
    (∀ n : Nat, hotkeyRun []
        ([KeyEvent.press Key.alt, KeyEvent.press Key.space] ++
         List.replicate n (KeyEvent.press Key.space) ++
         [KeyEvent.release Key.space, KeyEvent.release Key.alt]) = ([], 1)) ∧
    (∀ (evs : List KeyEvent) (s : List Key), Key.space ∉ s →
        KeyEvent.press Key.space ∉ evs → (hotkeyRun s evs).2 = 0) ∧
    (∀ (evs : List KeyEvent) (s : List Key), Key.alt ∉ s →
        KeyEvent.press Key.alt ∉ evs → (hotkeyRun s evs).2 = 0) ∧
    (∀ (s : List Key) (k : Key), (on_press s k).2 = true → (on_press s k).1 = []) := by
  refine ⟨?_, ?_, ?_, ?_⟩
  · intro n
    cases n with
    | zero => decide
    | succ j =>
      have e1 : hotkeyStep [] (KeyEvent.press Key.alt) = ([Key.alt], false) := by decide
      have e2 : hotkeyStep [Key.alt] (KeyEvent.press Key.space) = ([], true) := by decide
      have e3 : hotkeyStep [] (KeyEvent.press Key.space) = ([Key.space], false) := by decide
      have e4 : hotkeyRun [Key.space]
          [KeyEvent.release Key.space, KeyEvent.release Key.alt] = ([], 0) := by decide
      simp [List.replicate_succ, List.cons_append, List.append_assoc,
        hotkeyRun, e1, e2, e3, hotkeyRun_space_repeat, e4]
      decide
  · exact fun evs s => hotkeyRun_no_chord_key Key.space (Or.inr rfl) evs s
  · exact fun evs s => hotkeyRun_no_chord_key Key.alt (Or.inl rfl) evs s
  · intro s k h
    by_cases hc : Key.alt ∈ (if k ∈ s then s else k :: s) ∧
        Key.space ∈ (if k ∈ s then s else k :: s)
    · simp [on_press, hc]
    · simp [on_press, hc] at h

/-- C7 (witness): the cycle fact at three auto-repeats and the
single-member fact at a press-and-release of `alt` alone. -/
theorem hotkey_toggle_cycles_witness :
    hotkeyRun [] ([KeyEvent.press Key.alt, KeyEvent.press Key.space] ++
      List.replicate 3 (KeyEvent.press Key.space) ++
      [KeyEvent.release Key.space, KeyEvent.release Key.alt]) = ([], 1) ∧
    (hotkeyRun [] [KeyEvent.press Key.alt, KeyEvent.release Key.alt]).2 = 0 :=
  ⟨hotkey_toggle_cycles.1 3,
   hotkey_toggle_cycles.2.1 [KeyEvent.press Key.alt, KeyEvent.release Key.alt] []
     (by decide) (by decide)⟩

/-- C9: calling `stop()` on a fresh `Recorder` (no `start()` ever ran)
does not return the no-audio result `None`; it raises `AttributeError`,
because `self.stream` is first assigned inside `start()` and
`stop()` dereferences it unconditionally. -/
theorem stop_without_start_raises :
    Recorder.init.stop = Except.error RecError.attributeError := rfl

/-- C3: the claim says the temporary audio artifact is deleted after the
call on both the success and every failure path.  On the code,
`os.unlink(audio_path)` sits after the `with` block on the straight-line
path only; an exception from the API call propagates past it, so a failed
call leaves the artifact on disk.  Concretely: with a network failure the
file `/tmp/audio.wav` still exists after the call (and no unlink effect
was performed), while the same call succeeding does delete it. -/
theorem failed_transcription_leaks_artifact :
    (transcribe { apiKey := some "sk-test" }
        (ApiOutcome.fail (TranscriptionError.networkError "Connection error."))
        { files := ["/tmp/audio.wav"] } "/tmp/audio.wav").fs.hasFile "/tmp/audio.wav" = true ∧
    (transcribe { apiKey := some "sk-test" }
        (ApiOutcome.fail (TranscriptionError.networkError "Connection error."))
        { files := ["/tmp/audio.wav"] } "/tmp/audio.wav").trace = [] ∧
    (transcribe { apiKey := some "sk-test" } (ApiOutcome.ok "bonjour")
        { files := ["/tmp/audio.wav"] } "/tmp/audio.wav").fs.hasFile "/tmp/audio.wav" = false := by
  refine ⟨?_, rfl, ?_⟩ <;> decide

/-- C8: with no `OPENAI_API_KEY` in the environment the OpenAI client
constructor raises inside `transcribe`; `transcribe_audio` catches every
exception, so the process never crashes and the failure is surfaced as an
"error" status event (icon idle, menu status "Error", "Error"
notification carrying the credential message) with no paste.  Failures
reaching the handler are the classified exceptions of the transcription
stack (`TranscriptionError`: auth, network, service), while an empty
transcript is not one of them: it is returned as a valid result and goes
down the success path ("Transcription complete"). -/
theorem missing_credential_error_status :
    (∀ (api : ApiOutcome) (fs : FS) (p : String),
      transcribe_audio { apiKey := none } api fs p =
        { fs := fs, trace := [Effect.setIcon "idle", Effect.setStatus "Error",
            Effect.notify "Error" authMissingMsg] }) ∧
    (∀ (k : String) (fs : FS) (p : String),
      transcribe_audio { apiKey := some k } (ApiOutcome.ok "") fs p =
        { fs := fs.unlink p,
          trace := [Effect.unlink p, Effect.paste "", Effect.setIcon "idle",
            Effect.setStatus "Idle", Effect.notify "Transcription complete" ""] }) := by
  constructor
  · intro api fs p
    cases api <;> rfl
  · intro k fs p
    rfl

/-- C10: a successful transcription returning the empty string still
reaches the paste step — `paste_text("")` overwrites the clipboard with
empty content and still synthesizes the Cmd+V keystroke — and the
"Transcription complete" notification is emitted with an empty message:
nothing on the success path is conditional on the text being non-empty. -/
theorem empty_transcript_still_pasted :
    (∀ (k : String) (fs : FS) (p : String),
      (transcribe_audio { apiKey := some k } (ApiOutcome.ok "") fs p).trace =
        [Effect.unlink p, Effect.paste "", Effect.setIcon "idle",
         Effect.setStatus "Idle", Effect.notify "Transcription complete" ""]) ∧
    PasteEffect.copyToClipboard "" ∈ paste_text "" ∧
    PasteEffect.pressKey "v" ∈ paste_text "" := by
  refine ⟨fun k fs p => rfl, ?_, ?_⟩ <;> decide

/-- C4: whenever `transcribe` raises — here, whenever its result is an
error with message `e`, which for the collaborators' classified errors is
non-empty — the `except` branch of `transcribe_audio` runs: no paste
effect is ever performed, the icon returns to idle, and an "Error"
notification is emitted carrying exactly that non-empty message. -/
theorem failed_transcription_no_paste
    (env : Env) (api : ApiOutcome) (fs : FS) (p e : String)
    (h : (transcribe env api fs p).result = Except.error e) (hne : e ≠ "") :
    (transcribe_audio env api fs p).trace =
      [Effect.setIcon "idle", Effect.setStatus "Error", Effect.notify "Error" e] ∧
    (∀ t, Effect.paste t ∉ (transcribe_audio env api fs p).trace) ∧
    (transcribe_audio env api fs p).fs = fs ∧ e ≠ "" := by
  obtain ⟨key⟩ := env
  cases key with
  | none =>
    simp only [transcribe, Except.error.injEq] at h
    subst h
    refine ⟨rfl, ?_, rfl, hne⟩
    intro t
    simp [transcribe_audio, transcribe]
  | some k =>
    cases api with
    | ok text => simp [transcribe] at h
    | fail err =>
      simp only [transcribe, Except.error.injEq] at h
      subst h
      refine ⟨rfl, ?_, rfl, hne⟩
      intro t
      simp [transcribe_audio, transcribe]

/-- C4 (witness): a concrete network failure. -/
theorem failed_transcription_no_paste_witness :
    (transcribe { apiKey := some "sk-test" }
        (ApiOutcome.fail (TranscriptionError.networkError "Connection error."))
        { files := ["/tmp/a.wav"] } "/tmp/a.wav").result =
      Except.error "Connection error." ∧
    "Connection error." ≠ "" ∧
    ((transcribe_audio { apiKey := some "sk-test" }
        (ApiOutcome.fail (TranscriptionError.networkError "Connection error."))
        { files := ["/tmp/a.wav"] } "/tmp/a.wav").trace =
      [Effect.setIcon "idle", Effect.setStatus "Error",
       Effect.notify "Error" "Connection error."] ∧
    (∀ t, Effect.paste t ∉ (transcribe_audio { apiKey := some "sk-test" }
        (ApiOutcome.fail (TranscriptionError.networkError "Connection error."))
        { files := ["/tmp/a.wav"] } "/tmp/a.wav").trace) ∧
    (transcribe_audio { apiKey := some "sk-test" }
        (ApiOutcome.fail (TranscriptionError.networkError "Connection error."))
        { files := ["/tmp/a.wav"] } "/tmp/a.wav").fs = { files := ["/tmp/a.wav"] } ∧
    "Connection error." ≠ "") :=
  ⟨rfl, by decide,
   failed_transcription_no_paste { apiKey := some "sk-test" }
     (ApiOutcome.fail (TranscriptionError.networkError "Connection error."))
     { files := ["/tmp/a.wav"] } "/tmp/a.wav" "Connection error." rfl (by decide)⟩

/-- C5: a successful transcription of a non-empty text runs the `try`
block to the end: the trace is exactly unlink, paste, icon idle, menu
Idle, "Transcription complete" notification — so `paste_text` is invoked
exactly once, with exactly the text, and the idle/Idle transition happens
only after the paste; the notification message is the text itself when it
has at most 50 characters and its first 50 characters followed by "..."
otherwise. -/
theorem successful_transcription_pastes_once_then_idle
    (k text : String) (fs : FS) (p : String) (_hne : text ≠ "") :
    (transcribe_audio { apiKey := some k } (ApiOutcome.ok text) fs p).trace =
      [Effect.unlink p, Effect.paste text, Effect.setIcon "idle",
       Effect.setStatus "Idle",
       Effect.notify "Transcription complete" (truncate50 text)] ∧
    (transcribe_audio { apiKey := some k } (ApiOutcome.ok text) fs p).trace.filter
        Effect.isPaste = [Effect.paste text] ∧
    (text.length ≤ 50 → truncate50 text = text) ∧
    (50 < text.length → truncate50 text = text.take 50 ++ "...") := by
  refine ⟨rfl, ?_, ?_, ?_⟩
  · simp [transcribe_audio, transcribe, Effect.isPaste]
  · intro h
    simp only [truncate50]
    rw [if_neg (by omega)]
  · intro h
    simp only [truncate50]
    rw [if_pos (by omega)]

/-- C5 (witness): the concrete session of the spec's scenario,
transcript "hello world". -/
theorem successful_transcription_pastes_once_then_idle_witness :
    "hello world" ≠ "" ∧
    ((transcribe_audio { apiKey := some "sk-test" } (ApiOutcome.ok "hello world")
        { files := ["/tmp/a.wav"] } "/tmp/a.wav").trace =
      [Effect.unlink "/tmp/a.wav", Effect.paste "hello world", Effect.setIcon "idle",
       Effect.setStatus "Idle",
       Effect.notify "Transcription complete" (truncate50 "hello world")] ∧
    (transcribe_audio { apiKey := some "sk-test" } (ApiOutcome.ok "hello world")
        { files := ["/tmp/a.wav"] } "/tmp/a.wav").trace.filter Effect.isPaste =
      [Effect.paste "hello world"] ∧
    ("hello world".length ≤ 50 → truncate50 "hello world" = "hello world") ∧
    (50 < "hello world".length →
      truncate50 "hello world" = "hello world".take 50 ++ "...")) :=
  ⟨by decide,
   successful_transcription_pastes_once_then_idle "sk-test" "hello world"
     { files := ["/tmp/a.wav"] } "/tmp/a.wav" (by decide)⟩

/-- C6: on a recorder whose stream exists (i.e. `start()` has run),
`stop()` clears the recording flag as its first statement — so any block
the audio thread delivers afterwards is not appended — then closes the
stream; it returns `None` when zero blocks were collected, and otherwise
a WAV artifact at 16000 Hz, mono, 16-bit, whose samples are the
concatenation of the collected blocks in arrival order. -/
theorem recorder_stop_contract (r : Recorder) (st : StreamStatus)
    (h : r.stream = some st) :
    (∀ b, (r.stopBegin).callback b = r.stopBegin) ∧
    (r.stopBegin).recording = false ∧
    (r.frames = [] →
      r.stop = Except.ok ({ recording := false,
                            frames := r.frames,
                            stream := some StreamStatus.closed }, none)) ∧
    (r.frames ≠ [] →
      r.stop = Except.ok ({ recording := false,
                            frames := r.frames,
                            stream := some StreamStatus.closed },
        some { sampleRate := SAMPLE_RATE,
               channels := 1,
               bitDepth := 16,
               samples := r.frames.flatten })) := by
  obtain ⟨rec, frames, stream⟩ := r
  dsimp only at h
  subst h
  refine ⟨?_, rfl, ?_, ?_⟩
  · intro b
    simp [Recorder.callback, Recorder.stopBegin]
  · intro hf
    subst hf
    rfl
  · intro hf
    cases frames with
    | nil => exact absurd rfl hf
    | cons a l => rfl

/-- C6 (witness): a just-started recorder that captured one block. -/
theorem recorder_stop_contract_witness :
    ((Recorder.init.start.callback [1, 2]).stream = some StreamStatus.started) ∧
    ((∀ b, ((Recorder.init.start.callback [1, 2]).stopBegin).callback b =
        (Recorder.init.start.callback [1, 2]).stopBegin) ∧
    ((Recorder.init.start.callback [1, 2]).stopBegin).recording = false ∧
    ((Recorder.init.start.callback [1, 2]).frames = [] →
      (Recorder.init.start.callback [1, 2]).stop =
        Except.ok ({ recording := false,
                     frames := (Recorder.init.start.callback [1, 2]).frames,
                     stream := some StreamStatus.closed }, none)) ∧
    ((Recorder.init.start.callback [1, 2]).frames ≠ [] →
      (Recorder.init.start.callback [1, 2]).stop =
        Except.ok ({ recording := false,
                     frames := (Recorder.init.start.callback [1, 2]).frames,
                     stream := some StreamStatus.closed },
          some { sampleRate := SAMPLE_RATE,
                 channels := 1,
                 bitDepth := 16,
                 samples := (Recorder.init.start.callback [1, 2]).frames.flatten }))) :=
  ⟨rfl, recorder_stop_contract (Recorder.init.start.callback [1, 2])
    StreamStatus.started rfl⟩

/-- C1 (counterexample): after toggle, one block, toggle, the app is in
Transcribing (one transcription in flight, recorder flag down).  A
further toggle is not ignored: it changes the state and starts a second
`AudioCapture` (`starts` goes from 1 to 2), because `toggle_recording`
branches only on `recorder.is_recording()`; continuing the trace with a
block and another toggle reaches two simultaneously in-flight
transcription calls. -/
theorem toggle_during_transcribing_changes_state :
    (appRun appInit [AppEvent.toggle, AppEvent.deliver [0], AppEvent.toggle]).inflight = 1 ∧
    (appRun appInit [AppEvent.toggle, AppEvent.deliver [0],
        AppEvent.toggle]).recorder.recording = false ∧
    appStep (appRun appInit [AppEvent.toggle, AppEvent.deliver [0], AppEvent.toggle])
        AppEvent.toggle ≠
      appRun appInit [AppEvent.toggle, AppEvent.deliver [0], AppEvent.toggle] ∧
    (appStep (appRun appInit [AppEvent.toggle, AppEvent.deliver [0], AppEvent.toggle])
        AppEvent.toggle).starts = 2 ∧
    (appRun appInit [AppEvent.toggle, AppEvent.deliver [0], AppEvent.toggle,
        AppEvent.toggle, AppEvent.deliver [0], AppEvent.toggle]).inflight = 2 := by
  decide

/-- C1 (amended): toggles outside `Recording` are not ignored; the
controller distinguishes states only through the recorder flag.  A toggle
arriving with the flag down — in particular while a transcription is in
flight — is handled exactly like a toggle in Idle: it runs
`start_recording`, starting a new `AudioCapture`; hence a subsequent stop
can dispatch a second in-flight `TranscriptionClient` call (see the
counterexample). -/
theorem toggle_when_not_recording_starts_capture (s : AppState)
    (h : s.recorder.recording = false) :
    appStep s AppEvent.toggle = start_recording s ∧
    (appStep s AppEvent.toggle).starts = s.starts + 1 ∧
    (appStep s AppEvent.toggle).recorder.recording = true := by
  have h1 : toggle_recording s = start_recording s := by
    simp [toggle_recording, Recorder.is_recording, h]
  refine ⟨h1, ?_, ?_⟩ <;>
    simp [appStep, h1, start_recording, Recorder.start]

/-- C1 (witness): the Transcribing state reached by toggle, block,
toggle. -/
theorem toggle_when_not_recording_starts_capture_witness :
    (appRun appInit [AppEvent.toggle, AppEvent.deliver [0],
        AppEvent.toggle]).recorder.recording = false ∧
    (appStep (appRun appInit [AppEvent.toggle, AppEvent.deliver [0], AppEvent.toggle])
        AppEvent.toggle =
      start_recording (appRun appInit [AppEvent.toggle, AppEvent.deliver [0],
        AppEvent.toggle]) ∧
    (appStep (appRun appInit [AppEvent.toggle, AppEvent.deliver [0], AppEvent.toggle])
        AppEvent.toggle).starts =
      (appRun appInit [AppEvent.toggle, AppEvent.deliver [0], AppEvent.toggle]).starts + 1 ∧
    (appStep (appRun appInit [AppEvent.toggle, AppEvent.deliver [0], AppEvent.toggle])
        AppEvent.toggle).recorder.recording = true) :=
  ⟨by decide,
   toggle_when_not_recording_starts_capture
     (appRun appInit [AppEvent.toggle, AppEvent.deliver [0], AppEvent.toggle])
     (by decide)⟩

/-- C2 (counterexample): stopping with zero captured blocks dispatches no
transcription and returns the menu status to "Idle", but the condition is
reported through a notification whose subtitle is literally "Error"
("No audio recorded") — an error-labelled status event — and no
"EmptyCapture" status exists anywhere on the surface, refuting the
claim's "reports an EmptyCapture informational status that is not an
error status". -/
theorem empty_capture_reported_as_error_notification :
    (appRun appInit [AppEvent.toggle, AppEvent.toggle]).dispatches = 0 ∧
    (appRun appInit [AppEvent.toggle, AppEvent.toggle]).status = "Idle" ∧
    (appRun appInit [AppEvent.toggle, AppEvent.toggle]).notifs =
      [("Recording...", "Option+Space to stop"), ("Error", "No audio recorded")] ∧
    ("Error", "No audio recorded") ∈ (appRun appInit [AppEvent.toggle, AppEvent.toggle]).notifs ∧
    (appRun appInit [AppEvent.toggle, AppEvent.toggle]).notifs.all
      (fun n => n.1 ≠ "EmptyCapture") = true := by
  decide

/-- C2 (amended): stopping a recording with zero captured blocks never
invokes `TranscriptionClient` (no dispatch, in-flight count unchanged)
and returns the mode to Idle (icon "idle", menu status "Idle", recorder
flag down), but the informational report is a notification labelled
"Error" with message "No audio recorded" rather than a non-error
"EmptyCapture" status. -/
theorem empty_capture_no_dispatch_idle (s : AppState) (st : StreamStatus)
    (h1 : s.recorder.recording = true) (h2 : s.recorder.frames = [])
    (h3 : s.recorder.stream = some st) :
    (appStep s AppEvent.toggle).dispatches = s.dispatches ∧
    (appStep s AppEvent.toggle).inflight = s.inflight ∧
    (appStep s AppEvent.toggle).status = "Idle" ∧
    (appStep s AppEvent.toggle).icon = "idle" ∧
    (appStep s AppEvent.toggle).notifs = s.notifs ++ [("Error", "No audio recorded")] ∧
    (appStep s AppEvent.toggle).recorder.recording = false := by
  obtain ⟨⟨rec, frames, stream⟩, inflight, starts, dispatches, tc, icon, status,
    notifs, pasted⟩ := s
  dsimp only at h1 h2 h3
  subst h1
  subst h2
  subst h3
  refine ⟨rfl, rfl, rfl, rfl, rfl, rfl⟩

/-- C2 (witness): the state right after a first toggle started a
recording that captured nothing. -/
theorem empty_capture_no_dispatch_idle_witness :
    (appRun appInit [AppEvent.toggle]).recorder.recording = true ∧
    (appRun appInit [AppEvent.toggle]).recorder.frames = [] ∧
    (appRun appInit [AppEvent.toggle]).recorder.stream = some StreamStatus.started ∧
    ((appStep (appRun appInit [AppEvent.toggle]) AppEvent.toggle).dispatches =
        (appRun appInit [AppEvent.toggle]).dispatches ∧
    (appStep (appRun appInit [AppEvent.toggle]) AppEvent.toggle).inflight =
        (appRun appInit [AppEvent.toggle]).inflight ∧
    (appStep (appRun appInit [AppEvent.toggle]) AppEvent.toggle).status = "Idle" ∧
    (appStep (appRun appInit [AppEvent.toggle]) AppEvent.toggle).icon = "idle" ∧
    (appStep (appRun appInit [AppEvent.toggle]) AppEvent.toggle).notifs =
        (appRun appInit [AppEvent.toggle]).notifs ++ [("Error", "No audio recorded")] ∧
    (appStep (appRun appInit [AppEvent.toggle]) AppEvent.toggle).recorder.recording = false) :=
  ⟨by decide, by decide, by decide,
   empty_capture_no_dispatch_idle (appRun appInit [AppEvent.toggle])
     StreamStatus.started (by decide) (by decide) (by decide)⟩
